import Mathlib

/-!
Shallow embedding of the core pipeline of the sentiment-driven
options-trading system: event normalization (Alpaca news, Reddit),
the sentiment engine, the trade-signal engine, and the pipeline
coordinator, with theorems checking the specification's claims.

Python floats are embedded as exact rationals (ℚ); timestamps as
integers (epoch seconds); fallible calls as Except/Option values.
External collaborators (the FinBERT pipeline object, the ISO-8601
parser of the datetime library, the Redis client, the SQLite
repository, the PRAW Reddit client) are passed in as explicit
environment parameters, exactly in the shape the source consumes them.
-/

namespace TradeSent

/-! ### config/settings.py (default values; environment overrides are
bootstrapping and out of scope) -/

def settings.SENTIMENT_THRESHOLD_BULLISH : ℚ := (6/10 : ℚ)

def settings.SENTIMENT_THRESHOLD_BEARISH : ℚ := (-6/10 : ℚ)

def settings.MIN_CONFIDENCE_SCORE : ℚ := (7/10 : ℚ)

/-! ### services/intelligence/trade_signal.py -/

/-- Python truthiness of an Optional[float]: None and 0.0 are falsy.
`pyOrQ a b` embeds the Python expression `a or b`. -/
def pyOrQ (a : Option ℚ) (b : ℚ) : ℚ :=
  match a with
  | none => b
  | some x => if x = 0 then b else x

structure TradeSignalService where
  threshold_bullish : ℚ
  threshold_bearish : ℚ
  min_confidence : ℚ
deriving Repr, DecidableEq

/-- TradeSignalService.__init__: each argument defaults through Python
`or` to the settings value. -/
def TradeSignalService.make (threshold_bullish threshold_bearish min_confidence : Option ℚ) :
    TradeSignalService :=
  { threshold_bullish := pyOrQ threshold_bullish settings.SENTIMENT_THRESHOLD_BULLISH
    threshold_bearish := pyOrQ threshold_bearish settings.SENTIMENT_THRESHOLD_BEARISH
    min_confidence := pyOrQ min_confidence settings.MIN_CONFIDENCE_SCORE }

/-- The dict returned by TradeSignalService.signal. -/
structure SignalResult where
  side : String
  reason : String
  score : ℚ
deriving Repr, DecidableEq

/-- TradeSignalService.signal, line for line. -/
def TradeSignalService.signal (svc : TradeSignalService) (sentiment_score : ℚ)
    (confidence : Option ℚ) (circuit_breaker_tripped : Bool) : SignalResult :=
  if circuit_breaker_tripped then
    { side := "hold", reason := "circuit_breaker", score := sentiment_score }
  else
    let conf : ℚ := match confidence with | some c => c | none => 1
    if conf < svc.min_confidence then
      { side := "hold", reason := "low_confidence", score := sentiment_score }
    else if sentiment_score ≥ svc.threshold_bullish then
      { side := "buy", reason := "sentiment_bullish", score := sentiment_score }
    else if sentiment_score ≤ svc.threshold_bearish then
      { side := "sell", reason := "sentiment_bearish", score := sentiment_score }
    else
      { side := "hold", reason := "neutral", score := sentiment_score }

/-- The service with the claim's thresholds bullish=0.6, bearish=-0.6,
minConfidence=0.7 (these are also the settings defaults). -/
def defaultService : TradeSignalService :=
  { threshold_bullish := (6/10 : ℚ), threshold_bearish := (-6/10 : ℚ), min_confidence := (7/10 : ℚ) }

/-! ### services/intelligence/sentiment_engine.py -/

/-- str.lower(), on the underlying character list. -/
def pyLower (s : String) : String := String.mk (s.data.map Char.toLower)

/-- str.strip(): drop whitespace from both ends. -/
def pyStrip (s : String) : String :=
  String.mk (((s.data.dropWhile Char.isWhitespace).reverse.dropWhile Char.isWhitespace).reverse)

/-- Python slicing s[:n]. -/
def pyTake (s : String) (n : Nat) : String := String.mk (s.data.take n)

/-- One entry of the list a FinBERT pipeline call returns: a label
together with its weight. -/
structure LabelScore where
  label : String
  score : ℚ
deriving Repr, DecidableEq

/-- The dict score_finbert returns on success. -/
structure FinbertScore where
  score : ℚ
  label : String
  model : String
deriving Repr, DecidableEq

/-- The dict score_llama would return on success. -/
structure LlamaScore where
  score : ℚ
deriving Repr, DecidableEq

/-- A per-backend sub-result stored in SentimentResult.raw. -/
inductive SubResult where
  | finbert (r : FinbertScore)
  | llama (r : LlamaScore)
deriving Repr, DecidableEq

/-- The dict SentimentEngine.score returns. -/
structure SentimentResult where
  score : ℚ
  model_used : String
  raw : List (String × SubResult)
deriving Repr, DecidableEq

/-- Python dict assignment on an insertion-ordered dict: overwrite the
value in place when the key exists, append otherwise. -/
def dictInsert (d : List (String × ℚ)) (k : String) (v : ℚ) : List (String × ℚ) :=
  match d with
  | [] => [(k, v)]
  | (k1, v1) :: rest => if k1 = k then (k, v) :: rest else (k1, v1) :: dictInsert rest k v

/-- The dict comprehension of score_finbert:
x.label.lower() → x.score, later entries overwriting earlier ones. -/
def buildByLabel (out : List LabelScore) : List (String × ℚ) :=
  out.foldl (fun d x => dictInsert d (pyLower x.label) x.score) []

/-- dict.get(k, dflt). -/
def dictGet (d : List (String × ℚ)) (k : String) (dflt : ℚ) : ℚ :=
  match d with
  | [] => dflt
  | (k1, v) :: rest => if k1 = k then v else dictGet rest k dflt

/-- Python max(d, key=d.get): the first key of maximal value in
insertion order (max keeps the earlier element on ties). -/
def maxByValue : List (String × ℚ) → String
  | [] => ""
  | p :: rest => (rest.foldl (fun best q => if best.2 < q.2 then q else best) p).1

/-- State of a SentimentEngine as the methods consume it: the two
constructor flags and the FinBERT pipeline collaborator.
finbert_pipe = none embeds a failed (or never attempted) lazy model
load in _get_finbert; a pipe that returns none embeds a pipeline call
that raises (caught in score_finbert). -/
structure SentimentEngine where
  use_finbert : Bool
  use_llama : Bool
  finbert_pipe : Option (String → Option (List LabelScore))

/-- SentimentEngine._get_finbert: yields the cached pipeline. The lazy
load (only attempted when use_finbert is set) is part of the
environment; a load failure leaves the pipeline None. -/
def SentimentEngine.get_finbert (e : SentimentEngine) : Option (String → Option (List LabelScore)) :=
  e.finbert_pipe

/-- SentimentEngine.score_finbert. Besides the Optional result, the
embedding returns how many times the backend pipeline was actually
invoked (0 or 1), so that short-circuit claims are statable. -/
def SentimentEngine.score_finbert (e : SentimentEngine) (text : String) :
    Option FinbertScore × Nat :=
  match e.get_finbert with
  | none => (none, 0)
  | some pipe =>
    if text = "" ∨ pyStrip text = "" then (none, 0)
    else
      match pipe (pyTake text 4000) with
      | none => (none, 1)
      | some out =>
        if out = [] then (none, 1)
        else
          let by_label := buildByLabel out
          let pos := dictGet by_label "positive" 0
          let neg := dictGet by_label "negative" 0
          let _neu := dictGet by_label "neutral" 0
          (some { score := pos - neg, label := maxByValue by_label, model := "finbert" }, 1)

/-- SentimentEngine.score_llama: a placeholder that always returns
None ("Llama 3 scoring not yet implemented"). -/
def SentimentEngine.score_llama (_text : String) : Option LlamaScore := none

/-- Lines 70-75 of SentimentEngine.score: fold the FinBERT sub-result
into the initial neutral result. -/
def finStep (fin : Option FinbertScore) : SentimentResult :=
  match fin with
  | none => { score := 0, model_used := "none", raw := [] }
  | some f =>
    { score := f.score, model_used := "finbert", raw := [("finbert", SubResult.finbert f)] }

/-- Lines 76-81 of SentimentEngine.score: fold the Llama sub-result
into the running result — average the two scores and concatenate the
backend identifiers when Llama returned something. -/
def combineLlama (r : SentimentResult) (llama : Option LlamaScore) : SentimentResult :=
  match llama with
  | none => r
  | some l =>
    { score := (r.score + l.score) / 2
      model_used := "finbert+llama3"
      raw := r.raw ++ [("llama3", SubResult.llama l)] }

/-- SentimentEngine.score: FinBERT step then Llama step. The second
component counts backend scoring invocations. -/
def SentimentEngine.score (e : SentimentEngine) (text : String) : SentimentResult × Nat :=
  let fin := e.score_finbert text
  let llama := if e.use_llama then SentimentEngine.score_llama text else none
  (combineLlama (finStep fin.1) llama, fin.2)

/-- The neutral result score initializes: score 0, model "none",
empty raw mapping. -/
def neutralResult : SentimentResult := { score := 0, model_used := "none", raw := [] }

/-! ### models/news_item.py (the opaque audit mapping `raw` is not
consumed by the embedded code paths and is not modeled) -/

structure NewsItem where
  source : String
  article_id : String
  headline : String
  summary : Option String := none
  author : Option String := none
  created_at : Option Int := none
  updated_at : Option Int := none
  url : Option String := none
  symbols : List String := []
deriving Repr, DecidableEq

/-- Python `a or b` on strings: the empty string is falsy. -/
def pyOrS (a b : String) : String := if a = "" then b else a

/-- Python `a or b` on integers: 0 is falsy. -/
def pyOrI (a b : Int) : Int := if a = 0 then b else a

/-! ### services/pipeline.py -/

/-- The argument record of one SQLiteRepository.insert_sentiment call
(raw_payload is json.dumps of the sentiment result; the serialized
value is retained, serialization itself being external). -/
structure InsertCall where
  source : String
  score : ℚ
  source_id : String
  content_hash : Option String
  model_used : String
  raw_payload : Option SentimentResult
deriving Repr, DecidableEq

/-- The dashboard payload handed to RedisState.set_latest_sentiment. -/
structure LatestPayload where
  score : ℚ
  model_used : String
  source : String
  source_id : String
  headline : String
  symbols : List String
  signal_side : String
  signal_reason : String
deriving Repr, DecidableEq

/-- The dict NewsPipeline.process returns. -/
structure PipelineResult where
  sentiment_result : Option SentimentResult
  signal : Option SignalResult
  sentiment_row_id : Option Nat
deriving Repr, DecidableEq

/-- The collaborators one NewsPipeline.process run consumes: the
engine state, the signal service, the circuit-breaker read, and the
fallible persistence/live-state calls (Except.error embeds a raised
exception). -/
structure PipelineEnv where
  engine : SentimentEngine
  trade_signal_service : TradeSignalService
  circuit_breaker : Bool
  insert_sentiment : InsertCall → Except String Nat
  set_latest_sentiment : LatestPayload → Except String Unit

/-- Side effects attempted by one process run, for stating the
no-op/short-circuit claims. -/
structure PipelineTrace where
  scored_texts : List String
  insert_calls : List InsertCall
  publish_calls : List LatestPayload
deriving Repr, DecidableEq

/-- NewsPipeline._text_for_sentiment. -/
def NewsPipeline.text_for_sentiment (news_item : NewsItem) : String :=
  let headline := pyStrip (pyOrS news_item.headline "")
  let summary := pyStrip (pyOrS (news_item.summary.getD "") "")
  if headline ≠ "" ∧ summary ≠ "" then headline ++ " " ++ summary
  else pyOrS headline (pyOrS summary "")

/-- The insert_sentiment argument record process builds for an item
with non-empty text. -/
def NewsPipeline.insertCallFor (env : PipelineEnv) (news_item : NewsItem) : InsertCall :=
  let text := NewsPipeline.text_for_sentiment news_item
  let sentiment_result := (env.engine.score text).1
  { source := news_item.source, score := sentiment_result.score
    source_id := news_item.article_id, content_hash := none
    model_used := sentiment_result.model_used, raw_payload := some sentiment_result }

/-- NewsPipeline.process: empty text short-circuits to the no-op
result; otherwise score → circuit-breaker read → signal → best-effort
persist (error caught, row id nulled) → best-effort live-state
publish. The trace lists the collaborator calls actually attempted. -/
def NewsPipeline.process (env : PipelineEnv) (news_item : NewsItem) :
    PipelineResult × PipelineTrace :=
  let text := NewsPipeline.text_for_sentiment news_item
  if text = "" then
    ({ sentiment_result := none, signal := none, sentiment_row_id := none },
     { scored_texts := [], insert_calls := [], publish_calls := [] })
  else
    let sentiment_result := (env.engine.score text).1
    let score := sentiment_result.score
    let model_used := sentiment_result.model_used
    let circuit_breaker_tripped := env.circuit_breaker
    let signal := env.trade_signal_service.signal score none circuit_breaker_tripped
    let call := NewsPipeline.insertCallFor env news_item
    let row_id : Option Nat :=
      match env.insert_sentiment call with
      | Except.ok rid => some rid
      | Except.error _ => none
    let latest_payload : LatestPayload :=
      { score := score, model_used := model_used, source := news_item.source
        source_id := news_item.article_id
        headline := pyTake (pyOrS news_item.headline "") 200
        symbols := news_item.symbols
        signal_side := signal.side, signal_reason := signal.reason }
    let _published := env.set_latest_sentiment latest_payload
    ({ sentiment_result := some sentiment_result, signal := some signal
       sentiment_row_id := row_id },
     { scored_texts := [text], insert_calls := [call], publish_calls := [latest_payload] })

/-! ### services/data_ingestion/reddit_service.py -/

def STOCK_KEYWORDS : List String :=
  ["spy", "spx", "qqq", "dow", "nasdaq", "s&p", "etf",
   "options", "calls", "puts", "0dte", "expiration", "strike",
   "bullish", "bearish", "rally", "crash", "pump", "dump",
   "volatility", "iv", "theta", "premium"]

/-- Whether the first list occurs at the head of the second. -/
def listLeads : List Char → List Char → Bool
  | [], _ => true
  | _ :: _, [] => false
  | c :: cs, d :: ds => c == d && listLeads cs ds

/-- Python `needle in hay` on strings: substring containment. -/
def listHasSub (needle : List Char) : List Char → Bool
  | [] => listLeads needle []
  | c :: rest => listLeads needle (c :: rest) || listHasSub needle rest

/-- Python `needle in hay` for strings. -/
def pyContains (hay needle : String) : Bool := listHasSub needle.data hay.data

/-- str.startswith. -/
def pyStartsWith (s t : String) : Bool := listLeads t.data s.data

/-- One left-to-right non-overlapping replacement pass, with
structural fuel (one unit per char consumed, so s.length suffices). -/
def replaceAux (needle repl : List Char) : Nat → List Char → List Char
  | 0, s => s
  | _ + 1, [] => []
  | fuel + 1, c :: rest =>
    if needle ≠ [] ∧ listLeads needle (c :: rest) = true then
      repl ++ replaceAux needle repl fuel ((c :: rest).drop needle.length)
    else
      c :: replaceAux needle repl fuel rest

/-- Python str.replace(needle, repl). -/
def pyReplace (s needle repl : String) : String :=
  String.mk (replaceAux needle.data repl.data s.data.length s.data)

/-- RedditService._extract_keywords: the STOCK_KEYWORDS contained in
the lower-cased text, in vocabulary order. -/
def RedditService.extract_keywords (text : String) : List String :=
  if text = "" then []
  else
    let lower := pyLower text
    STOCK_KEYWORDS.filter (fun kw => pyContains lower kw)

/-- RedditService._relevance_score. -/
def RedditService.relevance_score (score : Int) (num_comments : Int)
    (keywords : List String) : ℚ :=
  let r : ℚ := 0
  let r := r + (2/10 : ℚ) * keywords.length
  let r := if score > 0 then r + min (4/10 : ℚ) ((1/10 : ℚ) * ((score : ℚ) / 50)) else r
  let r := if num_comments > 0 then
    r + min (2/10 : ℚ) ((5/100 : ℚ) * ((num_comments : ℚ) / 10)) else r
  min 1 r

/-- The attributes of a PRAW submission that
_submission_to_social_post reads (None embeds a missing attribute or a
None value). -/
structure Submission where
  id : String
  title : Option String := none
  selftext : Option String := none
  author : Option String := none
  created_utc : Option Int := none
  score : Option Int := none
  num_comments : Option Int := none
  num_crossposts : Option Int := none
  permalink : Option String := none
deriving Repr, DecidableEq

/-- models/social_post.py: the SocialPost dataclass (source is the
SourceType enum value; raw, the audit mapping, is not modeled). -/
structure SocialPost where
  source : String
  post_id : String
  content : String
  author : String
  timestamp : Int
  likes : Int
  shares : Int
  replies : Int
  views : Int
  relevance_score : ℚ
  keywords_matched : List String
  author_verified : Bool
  url : String
deriving Repr, DecidableEq

/-- RedditService._submission_to_social_post. `now` is the ingestion
time datetime.utcnow() would return; timestamps are epoch seconds.
Python truthiness makes created_utc = 0 fall back to `now` as well. -/
def RedditService.submission_to_social_post (now : Int) (s : Submission) : SocialPost :=
  let title := pyOrS (s.title.getD "") ""
  let selftext := pyOrS (s.selftext.getD "") ""
  let content := pyOrS (pyStrip (title ++ "\n" ++ selftext)) title
  let author := pyOrS (s.author.getD "") "[deleted]"
  let timestamp := match s.created_utc with
    | some c => if c = 0 then now else c
    | none => now
  let score := pyOrI (s.score.getD 0) 0
  let num_comments := pyOrI (s.num_comments.getD 0) 0
  let permalink := pyOrS (s.permalink.getD "") ""
  let permalink := if permalink ≠ "" ∧ ¬ pyStartsWith permalink "http" = true then
    "https://www.reddit.com" ++ permalink else permalink
  let keywords := RedditService.extract_keywords content
  let relevance := RedditService.relevance_score score num_comments keywords
  { source := "reddit", post_id := s.id, content := pyTake content 10000
    author := author, timestamp := timestamp, likes := score
    shares := pyOrI (s.num_crossposts.getD 0) 0
    replies := num_comments, views := 0, relevance_score := relevance
    keywords_matched := keywords, author_verified := false, url := permalink }

/-- A PRAW Reddit client (opaque handle). -/
structure RedditClient where
  client_id : String
  client_secret : String
  user_agent : String
deriving Repr, DecidableEq

/-- RedditService._get_reddit: returns the cached client, or raises
ValueError (embedded as Except.error) when either credential setting
is empty. -/
def RedditService.get_reddit (client_id client_secret user_agent : String)
    (cached : Option RedditClient) : Except String RedditClient :=
  match cached with
  | some r => Except.ok r
  | none =>
    if client_id = "" ∨ client_secret = "" then
      Except.error "REDDIT_CLIENT_ID and REDDIT_CLIENT_SECRET must be set in .env"
    else
      Except.ok { client_id := client_id, client_secret := client_secret
                  user_agent := user_agent }

/-- RedditService.fetch_recent, default kind/no comments: the
_get_reddit call sits outside every try/except, so its error
propagates to the caller; a single subreddit's fetch failure is caught
and skipped; each fetched submission is normalized. -/
def RedditService.fetch_recent (client_id client_secret user_agent : String)
    (cached : Option RedditClient) (now : Int) (subreddits : List String)
    (fetch_sub : String → Except String (List Submission)) :
    Except String (List SocialPost) :=
  match RedditService.get_reddit client_id client_secret user_agent cached with
  | Except.error e => Except.error e
  | Except.ok _ =>
    Except.ok (subreddits.foldl (fun posts sub_name =>
      match fetch_sub sub_name with
      | Except.error _ => posts
      | Except.ok items =>
        posts ++ items.map (RedditService.submission_to_social_post now)) [])

/-! ### services/data_ingestion/alpaca_news_service.py -/

/-- Result of AlpacaNewsStreamService.start: the boolean it returns
and whether the streaming thread was spawned. -/
structure StartResult where
  returned : Bool
  thread_started : Bool
deriving Repr, DecidableEq

/-- AlpacaNewsStreamService.start: missing credentials, or a missing
websocket-client library, yield False without starting the stream
thread and without raising. -/
def AlpacaNewsStreamService.start (key secret : String) (websocket_available : Bool) :
    StartResult :=
  if key = "" ∨ secret = "" then { returned := false, thread_started := false }
  else if ¬ websocket_available = true then { returned := false, thread_started := false }
  else { returned := true, thread_started := true }

/-- A raw Alpaca news payload, with exactly the fields _to_news_item
reads (None embeds an absent key). -/
structure RawNews where
  id : Option String := none
  key : Option String := none
  headline : Option String := none
  summary : Option String := none
  author : Option String := none
  created_at : Option String := none
  updated_at : Option String := none
  url : Option String := none
  symbols : Option (List String) := none
deriving Repr, DecidableEq

/-- AlpacaNewsStreamService._parse_ts: a falsy (absent or empty)
string yields None; otherwise Z is replaced by +00:00 and the string
is handed to the external ISO-8601 parser `fromisoformat`, whose
exception (none) is caught and becomes None. -/
def AlpacaNewsStreamService.parse_ts (fromisoformat : String → Option Int)
    (s : Option String) : Option Int :=
  match s with
  | none => none
  | some str => if str = "" then none else fromisoformat (pyReplace str "Z" "+00:00")

/-- AlpacaNewsStreamService._to_news_item: total on the typed payload
(the except branch only guards dynamic-typing errors) — in particular
a missing or unparseable created_at leaves created_at None; no
ingestion-time fallback exists on the news path. -/
def AlpacaNewsStreamService.to_news_item (fromisoformat : String → Option Int)
    (raw : RawNews) : NewsItem :=
  { source := "alpaca"
    article_id := match raw.id with | some v => v | none => raw.key.getD ""
    headline := raw.headline.getD ""
    summary := raw.summary
    author := raw.author
    created_at := AlpacaNewsStreamService.parse_ts fromisoformat raw.created_at
    updated_at := AlpacaNewsStreamService.parse_ts fromisoformat raw.updated_at
    url := raw.url
    symbols := raw.symbols.getD [] }

/-- A concrete stand-in for datetime.fromisoformat that knows the one
instant the spec's round-trip case uses (2024-01-01T00:00:00+00:00 is
epoch second 1704067200). -/
def fromisoJan2024 : String → Option Int :=
  fun s => if s = "2024-01-01T00:00:00+00:00" then some 1704067200 else none

end TradeSent

/-! ## Theorems -/

namespace TradeSent

/-- C1: TradeSignalService.signal evaluates its rules in the fixed
order circuit-breaker, low-confidence (argument, or 1.0 when None),
bullish, bearish, neutral — first match wins — and on the default
thresholds 0.6 / -0.6 / 0.7 the five concrete cases of the spec come
out as stated. -/
theorem signal_rule_order (svc : TradeSignalService) (s : ℚ) (c : Option ℚ) (cb : Bool) :
    (svc.signal s c cb =
      if cb then { side := "hold", reason := "circuit_breaker", score := s }
      else if c.getD 1 < svc.min_confidence then
        { side := "hold", reason := "low_confidence", score := s }
      else if s ≥ svc.threshold_bullish then
        { side := "buy", reason := "sentiment_bullish", score := s }
      else if s ≤ svc.threshold_bearish then
        { side := "sell", reason := "sentiment_bearish", score := s }
      else { side := "hold", reason := "neutral", score := s }) ∧
    defaultService.signal (8/10 : ℚ) none false =
      { side := "buy", reason := "sentiment_bullish", score := (8/10 : ℚ) } ∧
    defaultService.signal (-7/10 : ℚ) none false =
      { side := "sell", reason := "sentiment_bearish", score := (-7/10 : ℚ) } ∧
    defaultService.signal (1/10 : ℚ) none false =
      { side := "hold", reason := "neutral", score := (1/10 : ℚ) } ∧
    defaultService.signal (9/10 : ℚ) (some (5/10 : ℚ)) false =
      { side := "hold", reason := "low_confidence", score := (9/10 : ℚ) } ∧
    defaultService.signal (9/10 : ℚ) (some 1) true =
      { side := "hold", reason := "circuit_breaker", score := (9/10 : ℚ) } := by
  refine ⟨?_, ?_, ?_, ?_, ?_, ?_⟩
  · cases c <;> rfl
  all_goals norm_num [TradeSignalService.signal, defaultService]

/-- C10: passing an explicit 0.0 for any of the three constructor
thresholds is indistinguishable from omitting the argument — Python
`or` treats 0.0 as falsy and substitutes the settings default
(0.6, -0.6, 0.7 respectively). -/
theorem make_zero_threshold_is_default :
    (∀ b c, TradeSignalService.make (some 0) b c = TradeSignalService.make none b c) ∧
    (∀ a c, TradeSignalService.make a (some 0) c = TradeSignalService.make a none c) ∧
    (∀ a b, TradeSignalService.make a b (some 0) = TradeSignalService.make a b none) ∧
    TradeSignalService.make (some 0) (some 0) (some 0) =
      { threshold_bullish := (6/10 : ℚ), threshold_bearish := (-6/10 : ℚ), min_confidence := (7/10 : ℚ) } := by
  refine ⟨?_, ?_, ?_, ?_⟩
  · intro x y
    simp [TradeSignalService.make, pyOrQ]
  · intro x y
    simp [TradeSignalService.make, pyOrQ]
  · intro x y
    simp [TradeSignalService.make, pyOrQ]
  · norm_num [TradeSignalService.make, pyOrQ, settings.SENTIMENT_THRESHOLD_BULLISH,
      settings.SENTIMENT_THRESHOLD_BEARISH, settings.MIN_CONFIDENCE_SCORE]

/-! Helper lemmas: values stored in the label dict all come from the
backend output (or the 0.0 default), so any predicate on the backend
weights carries over to dict lookups. -/

lemma dictInsert_forall (P : ℚ → Prop) (d : List (String × ℚ)) (k : String) (v : ℚ)
    (hd : ∀ p ∈ d, P p.2) (hv : P v) : ∀ p ∈ dictInsert d k v, P p.2 := by
  induction d with
  | nil =>
    intro p hp
    simp only [dictInsert, List.mem_singleton] at hp
    simpa [hp]
  | cons q rest ih =>
    intro p hp
    obtain ⟨k1, v1⟩ := q
    simp only [dictInsert] at hp
    by_cases hk : k1 = k
    · simp only [if_pos hk, List.mem_cons] at hp
      rcases hp with hp | hp
      · simpa [hp]
      · exact hd p (List.mem_cons_of_mem _ hp)
    · simp only [if_neg hk, List.mem_cons] at hp
      rcases hp with hp | hp
      · exact hp ▸ hd (k1, v1) (List.mem_cons_self _ _)
      · exact ih (fun y hy => hd y (List.mem_cons_of_mem _ hy)) p hp

lemma buildFold_forall (P : ℚ → Prop) (out : List LabelScore)
    (h : ∀ x ∈ out, P x.score) (d : List (String × ℚ)) (hd : ∀ p ∈ d, P p.2) :
    ∀ p ∈ out.foldl (fun d x => dictInsert d (pyLower x.label) x.score) d, P p.2 := by
  induction out generalizing d with
  | nil => simpa using hd
  | cons x rest ih =>
    intro p hp
    simp only [List.foldl_cons] at hp
    exact ih (fun y hy => h y (List.mem_cons_of_mem _ hy)) _
      (dictInsert_forall P d _ _ hd (h x (List.mem_cons_self _ _))) p hp

lemma buildByLabel_forall (P : ℚ → Prop) (out : List LabelScore)
    (h : ∀ x ∈ out, P x.score) : ∀ p ∈ buildByLabel out, P p.2 :=
  buildFold_forall P out h [] (by simp)

lemma dictGet_forall (P : ℚ → Prop) (d : List (String × ℚ)) (k : String) (dflt : ℚ)
    (hd : ∀ p ∈ d, P p.2) (h0 : P dflt) : P (dictGet d k dflt) := by
  induction d with
  | nil => simpa [dictGet]
  | cons q rest ih =>
    obtain ⟨k1, v⟩ := q
    simp only [dictGet]
    split
    · exact hd (k1, v) (List.mem_cons_self _ _)
    · exact ih (fun p hp => hd p (List.mem_cons_of_mem _ hp))

/-- C2 (amended): SentimentEngine.score performs no clamping. The
returned score is the difference of the "positive" and "negative"
label weights, so it lies in [-1, 1] whenever every weight the backend
reports lies in [0, 1] (and it is 0 on every failure path); a backend
weight outside [0, 1] flows through out of range. -/
theorem score_in_range_of_backend_weights (e : SentimentEngine) (text : String)
    (h : ∀ pipe out, e.finbert_pipe = some pipe → pipe (pyTake text 4000) = some out →
      ∀ x ∈ out, 0 ≤ x.score ∧ x.score ≤ 1) :
    -1 ≤ (e.score text).1.score ∧ (e.score text).1.score ≤ 1 := by
  obtain ⟨uf, ul, pipe⟩ := e
  simp only [SentimentEngine.score, SentimentEngine.score_finbert, SentimentEngine.get_finbert,
    SentimentEngine.score_llama, ite_self, combineLlama]
  cases pipe with
  | none => simp [finStep, neutralResult]
  | some p =>
    simp only []
    split
    · simp [finStep]
    · cases hout : p (pyTake text 4000) with
      | none => simp [finStep]
      | some out =>
        simp only []
        split
        · simp [finStep]
        · have hall : ∀ x ∈ out, 0 ≤ x.score ∧ x.score ≤ 1 := h p out rfl hout
          have hdict := buildByLabel_forall (fun q => 0 ≤ q ∧ q ≤ 1) out hall
          have hpos := dictGet_forall (fun q => 0 ≤ q ∧ q ≤ 1)
            (buildByLabel out) "positive" 0 hdict (by norm_num)
          have hneg := dictGet_forall (fun q => 0 ≤ q ∧ q ≤ 1)
            (buildByLabel out) "negative" 0 hdict (by norm_num)
          simp only [finStep]
          exact ⟨by linarith [hpos.2, hneg.2, hpos.1, hneg.1],
            by linarith [hpos.2, hneg.2, hpos.1, hneg.1]⟩

/-- An engine whose FinBERT collaborator reports a raw "positive"
weight of 2 — outside the probability range. -/
def badPipeEngine : SentimentEngine :=
  { use_finbert := true, use_llama := false
    finbert_pipe := some (fun _ => some [{ label := "positive", score := 2 }]) }

/-- C2 counterexample: on a backend raw output outside [-1, 1] the
returned score is 2 — the claimed clamping to [-1, 1] does not exist. -/
theorem score_unclamped_counterexample :
    (badPipeEngine.score "up").1.score = 2 ∧ ¬ (badPipeEngine.score "up").1.score ≤ 1 := by
  have htrim : pyStrip "up" = "up" := by decide
  have hlow : pyLower "positive" = "positive" := by decide
  have h2 : (badPipeEngine.score "up").1.score = 2 := by
    simp [badPipeEngine, SentimentEngine.score, SentimentEngine.score_finbert,
      SentimentEngine.get_finbert, SentimentEngine.score_llama, htrim, hlow, buildByLabel,
      dictInsert, dictGet, finStep, combineLlama]
  refine ⟨h2, by rw [h2]; norm_num⟩

/-- C2 witness: with behaving backend weights (positive 1/2,
negative 1/4) the score 1/4 indeed lies in [-1, 1]. -/
theorem score_in_range_witness :
    -1 ≤ ((⟨true, false, some (fun _ => some [⟨"positive", 1/2⟩, ⟨"negative", 1/4⟩])⟩ :
        SentimentEngine).score "up").1.score ∧
      ((⟨true, false, some (fun _ => some [⟨"positive", 1/2⟩, ⟨"negative", 1/4⟩])⟩ :
        SentimentEngine).score "up").1.score ≤ 1 := by
  refine score_in_range_of_backend_weights _ "up" ?_
  intro pipe out hp hout x hx
  rw [show pipe = (fun _ => some [⟨"positive", 1/2⟩, ⟨"negative", 1/4⟩]) from
    (Option.some.injEq _ _ ▸ hp).symm] at hout
  simp only [Option.some.injEq] at hout
  subst hout
  simp only [List.mem_cons, List.not_mem_nil, or_false] at hx
  rcases hx with hx | hx <;> · subst hx; norm_num

/-- C6 counterexample: when only the Llama backend returns a score
(here 0.8) and FinBERT returns none, the combination logic of
SentimentEngine.score yields half of it (0.4) and labels it
"finbert+llama3" — not llama's own score with llama's identifier. -/
theorem combine_llama_only_counterexample :
    combineLlama (finStep none) (some { score := 8/10 }) =
      { score := 4/10, model_used := "finbert+llama3"
        raw := [("llama3", SubResult.llama { score := 8/10 })] } ∧
    ¬ (combineLlama (finStep none) (some { score := 8/10 })).score = 8/10 := by
  constructor
  · simp only [combineLlama, finStep, List.nil_append]
    norm_num
  · simp only [combineLlama, finStep]
    norm_num

/-- C6 (amended): when both backends return a score the combined score
is their arithmetic mean with model_used "finbert+llama3"; when only
FinBERT returns, the result is FinBERT's score with "finbert"; when
only Llama returns, the code averages Llama's score with the 0.0
default (halving it) and still reports "finbert+llama3". In the
current source score_llama is a stub that always returns None, so the
blended branch is unreachable and SentimentEngine.score decomposes as
stated. -/
theorem score_combination_policy :
    (∀ f l, combineLlama (finStep (some f)) (some l) =
      { score := (f.score + l.score) / 2, model_used := "finbert+llama3"
        raw := [("finbert", SubResult.finbert f), ("llama3", SubResult.llama l)] }) ∧
    (∀ f, combineLlama (finStep (some f)) none =
      { score := f.score, model_used := "finbert", raw := [("finbert", SubResult.finbert f)] }) ∧
    (∀ l, combineLlama (finStep none) (some l) =
      { score := l.score / 2, model_used := "finbert+llama3"
        raw := [("llama3", SubResult.llama l)] }) ∧
    (∀ text, SentimentEngine.score_llama text = none) ∧
    (∀ (e : SentimentEngine) (text : String), e.score text =
      (combineLlama (finStep (e.score_finbert text).1)
        (if e.use_llama then SentimentEngine.score_llama text else none),
       (e.score_finbert text).2)) := by
  refine ⟨?_, ?_, ?_, fun _ => rfl, fun _ _ => rfl⟩
  · intro f l
    simp [combineLlama, finStep]
  · intro f
    simp [combineLlama, finStep]
  · intro l
    simp [combineLlama, finStep]

/-- C7: empty or whitespace-only text short-circuits to the neutral
result (score 0, model_used "none", empty raw) with zero backend
invocations; the same neutral result — not an exception — comes back
when the enabled backends fail to load (pipe None) or error at call
time (pipe returns None). -/
theorem score_neutral_on_empty_or_failure (e : SentimentEngine) (text : String) :
    (pyStrip text = "" → e.score text = (neutralResult, 0)) ∧
    (e.finbert_pipe = none → (e.score text).1 = neutralResult) ∧
    (∀ pipe, e.finbert_pipe = some pipe → pipe (pyTake text 4000) = none →
      (e.score text).1 = neutralResult) := by
  obtain ⟨uf, ul, pipe⟩ := e
  refine ⟨?_, ?_, ?_⟩
  · intro htrim
    cases pipe <;>
      simp [SentimentEngine.score, SentimentEngine.score_finbert, SentimentEngine.get_finbert,
        SentimentEngine.score_llama, htrim, finStep, combineLlama, neutralResult]
  · intro hp
    simp only at hp
    subst hp
    simp [SentimentEngine.score, SentimentEngine.score_finbert, SentimentEngine.get_finbert,
      SentimentEngine.score_llama, finStep, combineLlama, neutralResult]
  · intro p hp hcall
    simp only at hp
    subst hp
    by_cases hguard : text = "" ∨ pyStrip text = "" <;>
      simp [SentimentEngine.score, SentimentEngine.score_finbert, SentimentEngine.get_finbert,
        SentimentEngine.score_llama, hguard, hcall, finStep, combineLlama, neutralResult]

/-- C7 witness: whitespace-only text on a live backend; a failed model
load; a backend erroring at call time — each yields the neutral
result. -/
theorem score_neutral_on_empty_or_failure_witness :
    ((⟨true, false, some (fun _ => some [⟨"positive", 1⟩])⟩ : SentimentEngine).score "  ") =
      (neutralResult, 0) ∧
    ((⟨true, true, none⟩ : SentimentEngine).score "Stocks rally").1 = neutralResult ∧
    ((⟨true, true, some (fun _ => none)⟩ : SentimentEngine).score "Stocks rally").1 =
      neutralResult :=
  ⟨(score_neutral_on_empty_or_failure _ "  ").1 (by decide),
   (score_neutral_on_empty_or_failure _ "Stocks rally").2.1 rfl,
   (score_neutral_on_empty_or_failure _ "Stocks rally").2.2 _ rfl rfl⟩

lemma pyOrS_empty_right (a : String) : pyOrS a "" = a := by
  unfold pyOrS
  split <;> simp_all

/-- C3: a news item whose headline and summary are both empty,
whitespace-only or absent short-circuits process to the all-None
result, with no scorer invocation, no persistence insert and no
live-state publish; with non-empty text the scored text is the
stripped headline concatenated with the stripped summary when both
are non-empty, else whichever one is non-empty. -/
theorem process_empty_text_no_op (env : PipelineEnv) (item : NewsItem) :
    (pyStrip item.headline = "" → pyStrip (item.summary.getD "") = "" →
      NewsPipeline.process env item =
        ({ sentiment_result := none, signal := none, sentiment_row_id := none },
         { scored_texts := [], insert_calls := [], publish_calls := [] })) ∧
    (pyStrip item.headline ≠ "" → pyStrip (item.summary.getD "") ≠ "" →
      NewsPipeline.text_for_sentiment item =
        pyStrip item.headline ++ " " ++ pyStrip (item.summary.getD "")) ∧
    (pyStrip item.headline ≠ "" → pyStrip (item.summary.getD "") = "" →
      NewsPipeline.text_for_sentiment item = pyStrip item.headline) ∧
    (pyStrip item.headline = "" → pyStrip (item.summary.getD "") ≠ "" →
      NewsPipeline.text_for_sentiment item = pyStrip (item.summary.getD "")) := by
  refine ⟨?_, ?_, ?_, ?_⟩
  · intro h1 h2
    simp only [NewsPipeline.process, NewsPipeline.text_for_sentiment, pyOrS_empty_right]
    simp [pyOrS, h1, h2]
  · intro h1 h2
    simp only [NewsPipeline.text_for_sentiment, pyOrS_empty_right]
    simp [h1, h2]
  · intro h1 h2
    simp only [NewsPipeline.text_for_sentiment, pyOrS_empty_right]
    simp [pyOrS, h1, h2]
  · intro h1 h2
    simp only [NewsPipeline.text_for_sentiment, pyOrS_empty_right]
    simp [pyOrS, h1, h2]

/-- An environment with every collaborator healthy (engine load
failed, so it scores neutrally). -/
def healthyEnv : PipelineEnv :=
  { engine := { use_finbert := true, use_llama := false, finbert_pipe := none }
    trade_signal_service := defaultService
    circuit_breaker := false
    insert_sentiment := fun _ => Except.ok 1
    set_latest_sentiment := fun _ => Except.ok () }

/-- A news item with whitespace-only headline and summary. -/
def blankItem : NewsItem :=
  { source := "alpaca", article_id := "a1", headline := "   ", summary := some " " }

/-- A news item with both headline and summary non-empty. -/
def fullItem : NewsItem :=
  { source := "alpaca", article_id := "a2", headline := " Fed lifts rates "
    summary := some "Markets rally" }

/-- C3 witness: the whitespace-only item short-circuits; the full item
scores headline-space-summary. -/
theorem process_empty_text_no_op_witness :
    NewsPipeline.process healthyEnv blankItem =
      ({ sentiment_result := none, signal := none, sentiment_row_id := none },
       { scored_texts := [], insert_calls := [], publish_calls := [] }) ∧
    NewsPipeline.text_for_sentiment fullItem =
      pyStrip fullItem.headline ++ " " ++ pyStrip (fullItem.summary.getD "") :=
  ⟨(process_empty_text_no_op healthyEnv blankItem).1 (by decide) (by decide),
   (process_empty_text_no_op healthyEnv fullItem).2.1 (by decide) (by decide)⟩

/-- C4: with non-empty scoring text, an insert_sentiment call that
raises is swallowed: process returns row id None, the signal is still
the valid signal computed from the sentiment score, and the live-state
publish is still attempted. -/
theorem process_persistence_failure_tolerated (env : PipelineEnv) (item : NewsItem)
    (e : String)
    (htext : NewsPipeline.text_for_sentiment item ≠ "")
    (hins : env.insert_sentiment (NewsPipeline.insertCallFor env item) = Except.error e) :
    (NewsPipeline.process env item).1.sentiment_row_id = none ∧
    (NewsPipeline.process env item).1.signal =
      some (env.trade_signal_service.signal
        ((env.engine.score (NewsPipeline.text_for_sentiment item)).1.score) none
        env.circuit_breaker) ∧
    (NewsPipeline.process env item).2.publish_calls.length = 1 := by
  refine ⟨?_, ?_, ?_⟩ <;>
    simp [NewsPipeline.process, htext, hins]

/-- An environment whose persistence collaborator always raises. -/
def brokenRepoEnv : PipelineEnv :=
  { engine := { use_finbert := true, use_llama := false, finbert_pipe := none }
    trade_signal_service := defaultService
    circuit_breaker := false
    insert_sentiment := fun _ => Except.error "db down"
    set_latest_sentiment := fun _ => Except.ok () }

/-- C4 witness: on the broken-persistence environment the full item
still yields a signal, a null row id, and one publish attempt. -/
theorem process_persistence_failure_tolerated_witness :
    (NewsPipeline.process brokenRepoEnv fullItem).1.sentiment_row_id = none ∧
    (NewsPipeline.process brokenRepoEnv fullItem).1.signal =
      some (brokenRepoEnv.trade_signal_service.signal
        ((brokenRepoEnv.engine.score (NewsPipeline.text_for_sentiment fullItem)).1.score) none
        brokenRepoEnv.circuit_breaker) ∧
    (NewsPipeline.process brokenRepoEnv fullItem).2.publish_calls.length = 1 :=
  process_persistence_failure_tolerated brokenRepoEnv fullItem "db down"
    (by decide) rfl

/-- C5: the relevance scorer is a pure function computing
min(1, 0.2·|keywords| + min(0.4, 0.1·likes/50) + min(0.2, 0.05·comments/10))
for non-negative engagement counts, hence always lands in [0, 1]; and
content with 3 matched keywords, 100 likes and 20 comments scores 0.9. -/
theorem relevance_score_formula (score num_comments : Int) (keywords : List String)
    (hs : 0 ≤ score) (hc : 0 ≤ num_comments) :
    RedditService.relevance_score score num_comments keywords =
      min 1 ((2/10 : ℚ) * keywords.length
        + min (4/10 : ℚ) ((1/10 : ℚ) * ((score : ℚ) / 50))
        + min (2/10 : ℚ) ((5/100 : ℚ) * ((num_comments : ℚ) / 10))) ∧
    0 ≤ RedditService.relevance_score score num_comments keywords ∧
    RedditService.relevance_score score num_comments keywords ≤ 1 ∧
    (RedditService.extract_keywords "spy calls bullish").length = 3 ∧
    RedditService.relevance_score 100 20 (RedditService.extract_keywords "spy calls bullish")
      = (9/10 : ℚ) := by
  have hsq : (0 : ℚ) ≤ (score : ℚ) := by exact_mod_cast hs
  have hcq : (0 : ℚ) ≤ (num_comments : ℚ) := by exact_mod_cast hc
  have hA : (0 : ℚ) ≤ min (4/10 : ℚ) ((1/10 : ℚ) * ((score : ℚ) / 50)) :=
    le_min (by norm_num) (by positivity)
  have hB : (0 : ℚ) ≤ min (2/10 : ℚ) ((5/100 : ℚ) * ((num_comments : ℚ) / 10)) :=
    le_min (by norm_num) (by positivity)
  have hk : (0 : ℚ) ≤ (2/10 : ℚ) * keywords.length := by positivity
  have hifs : ∀ r : ℚ,
      (if score > 0 then r + min (4/10 : ℚ) ((1/10 : ℚ) * ((score : ℚ) / 50)) else r) =
        r + min (4/10 : ℚ) ((1/10 : ℚ) * ((score : ℚ) / 50)) := by
    intro r
    split
    · rfl
    · have hz : score = 0 := le_antisymm (by omega) hs
      subst hz
      rw [show ((1/10 : ℚ) * (((0 : Int) : ℚ) / 50)) = 0 by norm_num]
      rw [min_eq_right (by norm_num : (0:ℚ) ≤ 4/10)]
      ring
  have hifc : ∀ r : ℚ,
      (if num_comments > 0 then
        r + min (2/10 : ℚ) ((5/100 : ℚ) * ((num_comments : ℚ) / 10)) else r) =
        r + min (2/10 : ℚ) ((5/100 : ℚ) * ((num_comments : ℚ) / 10)) := by
    intro r
    split
    · rfl
    · have hz : num_comments = 0 := le_antisymm (by omega) hc
      subst hz
      rw [show ((5/100 : ℚ) * (((0 : Int) : ℚ) / 10)) = 0 by norm_num]
      rw [min_eq_right (by norm_num : (0:ℚ) ≤ 2/10)]
      ring
  have hform : RedditService.relevance_score score num_comments keywords =
      min 1 ((2/10 : ℚ) * keywords.length
        + min (4/10 : ℚ) ((1/10 : ℚ) * ((score : ℚ) / 50))
        + min (2/10 : ℚ) ((5/100 : ℚ) * ((num_comments : ℚ) / 10))) := by
    simp only [RedditService.relevance_score, hifs, hifc]
    congr 1
    ring
  have hlen : (RedditService.extract_keywords "spy calls bullish").length = 3 := by decide
  refine ⟨hform, ?_, ?_, hlen, ?_⟩
  · rw [hform]
    exact le_min (by norm_num) (by linarith)
  · rw [hform]
    exact min_le_left _ _
  · simp only [RedditService.relevance_score, hlen]
    norm_num [min_def]

/-- C5 witness: 3 matched keywords, 100 likes, 20 comments give 0.9. -/
theorem relevance_score_formula_witness :
    RedditService.relevance_score 100 20 (RedditService.extract_keywords "spy calls bullish")
      = (9/10 : ℚ) :=
  (relevance_score_formula 100 20 (RedditService.extract_keywords "spy calls bullish")
    (by norm_num) (by norm_num)).2.2.2.2

/-- C8 counterexample: with credentials missing, the Reddit adapter's
first use raises ValueError (an exception out of _get_reddit, and out
of fetch_recent to its caller) — not a boolean start failure. -/
theorem reddit_missing_credentials_raises :
    RedditService.get_reddit "" "" "StockTracker/1.0" none =
      Except.error "REDDIT_CLIENT_ID and REDDIT_CLIENT_SECRET must be set in .env" ∧
    RedditService.fetch_recent "" "" "StockTracker/1.0" none 1700000000
      ["wallstreetbets", "options", "stocks", "StockMarket"] (fun _ => Except.ok []) =
      Except.error "REDDIT_CLIENT_ID and REDDIT_CLIENT_SECRET must be set in .env" := by
  constructor <;> rfl

/-- C8 (amended): the Alpaca news adapter's start returns False — no
thread spawned, no exception — when a credential is missing (or the
websocket library is absent); the Reddit adapter instead raises
ValueError out of _get_reddit on first use with missing credentials,
and fetch_recent propagates that error to its caller (only the
adapter's own poll loop catches and logs it). -/
theorem adapter_missing_credentials (key secret cid csec ua : String) (ws : Bool) :
    ((key = "" ∨ secret = "") →
      AlpacaNewsStreamService.start key secret ws =
        { returned := false, thread_started := false }) ∧
    (¬ ws = true →
      AlpacaNewsStreamService.start key secret ws =
        { returned := false, thread_started := false }) ∧
    ((cid = "" ∨ csec = "") →
      RedditService.get_reddit cid csec ua none =
        Except.error "REDDIT_CLIENT_ID and REDDIT_CLIENT_SECRET must be set in .env") ∧
    ((cid = "" ∨ csec = "") → ∀ (now : Int) (subs : List String)
        (fetch_sub : String → Except String (List Submission)),
      RedditService.fetch_recent cid csec ua none now subs fetch_sub =
        Except.error "REDDIT_CLIENT_ID and REDDIT_CLIENT_SECRET must be set in .env") := by
  refine ⟨?_, ?_, ?_, ?_⟩
  · intro h
    simp [AlpacaNewsStreamService.start, h]
  · intro h
    simp only [AlpacaNewsStreamService.start]
    split
    · rfl
    · simp [h]
  · intro h
    simp [RedditService.get_reddit, h]
  · intro h now subs fetch_sub
    simp [RedditService.fetch_recent, RedditService.get_reddit, h]

/-- C8 witness: missing Alpaca key gives the boolean failure; missing
Reddit client id raises. -/
theorem adapter_missing_credentials_witness :
    AlpacaNewsStreamService.start "" "sec" true =
      { returned := false, thread_started := false } ∧
    RedditService.get_reddit "" "secret2" "StockTracker/1.0" none =
      Except.error "REDDIT_CLIENT_ID and REDDIT_CLIENT_SECRET must be set in .env" :=
  ⟨(adapter_missing_credentials "" "sec" "" "secret2" "StockTracker/1.0" true).1 (Or.inl rfl),
   (adapter_missing_credentials "" "sec" "" "secret2" "StockTracker/1.0" true).2.2.1
     (Or.inl rfl)⟩

/-- C9 counterexample: an Alpaca news payload with created_at missing
normalizes to a NewsItem whose created_at is None — no ingestion-time
fallback exists on the news path, contradicting the claimed fallback. -/
theorem news_missing_timestamp_counterexample :
    (AlpacaNewsStreamService.to_news_item fromisoJan2024
      { id := some "n1", headline := some "Fed lifts rates" }).created_at.isSome = false := rfl

/-- C9 (amended): normalization is total (never raises): the news
item's created_at is exactly the _parse_ts result — the documented
instant round-trips through the Z→+00:00 rewrite, and a missing
created_at yields None rather than the ingestion time — while the
Reddit normalizer is the one that falls back to the ingestion time
when created_utc is absent. -/
theorem normalize_timestamp_fallback :
    (∀ (fromisoformat : String → Option Int) (raw : RawNews),
      (AlpacaNewsStreamService.to_news_item fromisoformat raw).created_at =
        AlpacaNewsStreamService.parse_ts fromisoformat raw.created_at) ∧
    (∀ (fromisoformat : String → Option Int),
      AlpacaNewsStreamService.parse_ts fromisoformat none = none) ∧
    (AlpacaNewsStreamService.to_news_item fromisoJan2024
      { id := some "n1", headline := some "Fed lifts rates"
        created_at := some "2024-01-01T00:00:00Z" }).created_at = some 1704067200 ∧
    (∀ (now : Int) (s : Submission), s.created_utc = none →
      (RedditService.submission_to_social_post now s).timestamp = now) := by
  refine ⟨fun _ _ => rfl, fun _ => rfl, by decide, ?_⟩
  intro now s h
  simp [RedditService.submission_to_social_post, h]

/-- C9 witness: a Reddit submission without created_utc gets the
ingestion time 1700000000 as its timestamp. -/
theorem normalize_timestamp_fallback_witness :
    (RedditService.submission_to_social_post 1700000000 { id := "p1" }).timestamp =
      1700000000 :=
  normalize_timestamp_fallback.2.2.2 1700000000 { id := "p1" } rfl

end TradeSent
